import Mathlib

/-!
Shallow embedding of the acebase-server OAuth provider layer and the
meta-info route, for checking the claims of the specification about them.

Sources embedded:
- src/oauth-providers/github.ts  (GithubAuthProvider)
- src/oauth-providers/gitlab.ts  (GitlabAuthProvider)
- src/oauth-providers/index.ts   (oAuth2Providers registry, in both the
  six-provider and the seven-provider variant present in the repository)
- dist/esm/routes/meta-info.js   (the /info/dbname route)

JavaScript values that flow through these functions (parsed JSON bodies,
object fields) are modelled by the inductive JSValue below; JS truthiness
and template-literal stringification are modelled explicitly. Parsed JSON
objects are association lists of (key, value) pairs in insertion order,
matching what Object.keys iterates over. Network responses are explicit
inputs: a function of the source that performs a fetch takes the fetched
status/body as an argument and reports the list of request URLs it issued,
so that what was fetched, and whether anything was fetched at all, is part
of the result of the function.
-/

/-- Model of a JavaScript runtime value as far as this code observes them.
A Date value is represented by its epoch milliseconds via the num
constructor, and an invalid Date (or NaN) by nan. -/
inductive JSValue where
  | undefined : JSValue
  | null : JSValue
  | bool : Bool → JSValue
  | num : Int → JSValue
  | nan : JSValue
  | str : String → JSValue
  | obj : List (String × JSValue) → JSValue
  | arr : List JSValue → JSValue
deriving Repr

/-- JavaScript truthiness of a value, as used by the conditions
of the source (if (result.error), user.avatar_url ? ... : ...,
user.nickname || user.name, if (this._config), req.user && ...). -/
def truthy : JSValue → Bool
  | .undefined => false
  | .null => false
  | .bool b => b
  | .num n => n != 0
  | .nan => false
  | .str s => s != ""
  | .obj _ => true
  | .arr _ => true

/-- Stringification of a value in a JS template literal or the Error
constructor, as far as the embedded code uses it. Arrays are not
stringified by any embedded code path we state claims about, so their
representation here is nominal. -/
def jsTemplate : JSValue → String
  | .undefined => "undefined"
  | .null => "null"
  | .bool b => if b then "true" else "false"
  | .num n => toString n
  | .nan => "NaN"
  | .str s => s
  | .obj _ => "[object Object]"
  | .arr _ => "[array]"

/-- Property read on a parsed JSON object: user.key is the bound value,
or undefined when the key is absent. -/
def getField (o : List (String × JSValue)) (k : String) : JSValue :=
  match o.find? (fun p => p.1 == k) with
  | some p => p.2
  | none => .undefined

/-- Property assignment o.key = v on a parsed JSON object: overwrite in
place when the key exists, else append. -/
def setField (o : List (String × JSValue)) (k : String) (v : JSValue) :
    List (String × JSValue) :=
  if (o.map Prod.fst).contains k then
    o.map (fun p => if p.1 == k then (k, v) else p)
  else o ++ [(k, v)]

/-- Characters encodeURIComponent leaves unescaped:
alphanumerics and - _ . ! ~ * apostrophe ( ). -/
def isURIUnreserved (c : Char) : Bool :=
  c.isAlphanum || c == '-' || c == '_' || c == '.' || c == '!' ||
  c == '~' || c == '*' || c == Char.ofNat 39 || c == '(' || c == ')'

/-- Upper-case hexadecimal digit for a value below 16. -/
def hexChar (n : Nat) : Char :=
  if n < 10 then Char.ofNat (48 + n) else Char.ofNat (55 + n)

/-- UTF-8 bytes of a single code point. -/
def utf8Bytes (c : Char) : List Nat :=
  let n := c.toNat
  if n < 128 then [n]
  else if n < 2048 then [192 + n / 64, 128 + n % 64]
  else if n < 65536 then [224 + n / 4096, 128 + (n / 64) % 64, 128 + n % 64]
  else [240 + n / 262144, 128 + (n / 4096) % 64, 128 + (n / 64) % 64, 128 + n % 64]

/-- Percent-encoding of one byte. -/
def percentByte (b : Nat) : String :=
  String.mk ['%', hexChar (b / 16), hexChar (b % 16)]

/-- Model of the JS global encodeURIComponent. -/
def encodeURIComponent (s : String) : String :=
  String.join (s.data.map (fun c =>
    if isURIUnreserved c then String.singleton c
    else String.join ((utf8Bytes c).map percentByte)))

/-- Scopes joined with a space, as settings.scopes.join makes them. -/
def joinScopes (scopes : List String) : String :=
  String.intercalate " " scopes

/-! ## Provider settings and the shared constructor scope logic

Both constructors run, on the settings object they received:
  if (!settings.scopes) (settings.scopes = []);
  if (!settings.scopes.includes(s)) (settings.scopes.push(s));
for s = email, profile, openid in that order. -/

/-- One conditional push: scopes.includes(s) ? scopes : scopes.push(s). -/
def pushScopeIfAbsent (l : List String) (s : String) : List String :=
  if l.contains s then l else l ++ [s]

/-- The scopes list after the GithubAuthProvider / GitlabAuthProvider
constructor body ran over the caller-supplied settings.scopes (none
models an absent scopes property, replaced by an empty array). -/
def constructorScopes (scopes : Option (List String)) : List String :=
  let s0 := match scopes with | none => [] | some l => l
  pushScopeIfAbsent (pushScopeIfAbsent (pushScopeIfAbsent s0 "email") "profile") "openid"

/-- Settings of the GithubAuthProvider after construction
(IGithubAuthSettings; client_id and client_secret from the base
IOAuth2ProviderSettings). -/
structure IGithubAuthSettings where
  client_id : String
  client_secret : String
  scopes : List String
  state : String
deriving Repr

/-- GithubAuthProvider constructor: keeps the base settings and
normalizes scopes. -/
def githubConstructor (client_id client_secret : String)
    (scopes : Option (List String)) (state : String) : IGithubAuthSettings :=
  { client_id := client_id, client_secret := client_secret,
    scopes := constructorScopes scopes, state := state }

/-- Settings of the GitlabAuthProvider after construction
(IGitlabAuthSettings). -/
structure IGitlabAuthSettings where
  client_id : String
  client_secret : String
  scopes : List String
  host : String
deriving Repr

/-- GitlabAuthProvider constructor: keeps the base settings and
normalizes scopes exactly as the github constructor does. -/
def gitlabConstructor (client_id client_secret : String)
    (scopes : Option (List String)) (host : String) : IGitlabAuthSettings :=
  { client_id := client_id, client_secret := client_secret,
    scopes := constructorScopes scopes, host := host }

/-! ## The normalized profile -/

/-- One entry of the picture list: an object with a single url field. -/
structure PictureItem where
  url : JSValue
deriving Repr

/-- The object literal both getUserInfo implementations return: the
normalized profile contract. These are its only fields. -/
structure FederatedProfile where
  id : JSValue
  name : JSValue
  display_name : JSValue
  picture : List PictureItem
  email : JSValue
  email_verified : JSValue
  other : List (String × JSValue)
deriving Repr

/-! ## GithubAuthProvider -/

/-- GithubAuthProvider.init: the authorization URL. Built from
constructor-time settings and the info argument only; the method performs
no fetch (the getOpenIDConfig machinery is commented out in the github
source), which the empty request list in the paired result records. -/
def githubInit (settings : IGithubAuthSettings) (state redirect_url : String) :
    String × List String :=
  ("https://github.com/login/oauth/authorize?scope="
      ++ encodeURIComponent (joinScopes settings.scopes)
      ++ "&client_id=" ++ settings.client_id
      ++ "&state=" ++ encodeURIComponent state
      ++ "&redirect_uri=" ++ encodeURIComponent redirect_url,
   [])

/-- GithubAuthProvider.getAccessToken applied to the fetch response.
status is the HTTP status of the response; the source never reads it
here. result is the parsed JSON body. Throwing is modelled by
Except.error carrying the Error message. -/
def githubGetAccessToken (_status : Nat) (result : List (String × JSValue)) :
    Except String (List (String × JSValue)) :=
  if truthy (getField result "error") then
    .error (jsTemplate (getField result "error"))
  else
    .ok result

/-- The profile object GithubAuthProvider.getUserInfo builds from the
parsed user payload in the 200 case. -/
def githubProfile (user : List (String × JSValue)) : FederatedProfile :=
  { id := getField user "id"
  , name := getField user "name"
  , display_name := getField user "name"
  , picture :=
      if truthy (getField user "avatar_url") then
        [{ url := getField user "avatar_url" }]
      else []
  , email := getField user "email"
  , email_verified := .bool true
  , other :=
      ((user.map Prod.fst).filter
          (fun key => !(["sub", "name", "picture", "email_verified"].contains key))).map
        (fun key => (key, getField user key)) }

/-- GithubAuthProvider.getUserInfo applied to the fetch response
(status and parsed body). Non-200 responses throw an Error built from
the error and error_description fields of the body. -/
def githubGetUserInfo (status : Nat) (body : List (String × JSValue)) :
    Except String FederatedProfile :=
  if status ≠ 200 then
    .error (jsTemplate (getField body "error") ++ ": "
            ++ jsTemplate (getField body "error_description"))
  else
    .ok (githubProfile body)

/-! ## GitlabAuthProvider -/

/-- The discovery document fields the gitlab provider reads. -/
structure IOpenIDConfiguration where
  authorization_endpoint : String
  token_endpoint : String
  revocation_endpoint : String
  userinfo_endpoint : String
deriving Repr, DecidableEq

/-- The discovery URL getOpenIDConfig fetches. -/
def discoveryUrl (host : String) : String :=
  "https://" ++ host ++ "/.well-known/openid-configuration"

/-- GitlabAuthProvider.getOpenIDConfig. The instance state is the
_config member (none before the first fetch). fetched is what the
network would answer if a request were made. Result: the returned
config, the new _config state, and the list of request URLs issued. -/
def getOpenIDConfig (host : String) (config : Option IOpenIDConfiguration)
    (fetched : IOpenIDConfiguration) :
    IOpenIDConfiguration × Option IOpenIDConfiguration × List String :=
  match config with
  | some c => (c, some c, [])
  | none => (fetched, some fetched, [discoveryUrl host])

/-- A sequence of getOpenIDConfig calls on one instance: the nth entry
of fetches is what the network would answer to the nth request, were one
issued during that call. Returns, per call, the returned config and the
request URLs that call issued, plus the final _config state. -/
def configCallSequence (host : String) (config : Option IOpenIDConfiguration)
    (fetches : List IOpenIDConfiguration) :
    List (IOpenIDConfiguration × List String) × Option IOpenIDConfiguration :=
  match fetches with
  | [] => ([], config)
  | f :: rest =>
    let r := getOpenIDConfig host config f
    let t := configCallSequence host r.2.1 rest
    ((r.1, r.2.2) :: t.1, t.2)

/-- GitlabAuthProvider.init: obtains the discovery document through
getOpenIDConfig and builds the authorization URL from its
authorization_endpoint. Result: URL, new _config state, requests issued. -/
def gitlabInit (settings : IGitlabAuthSettings)
    (config : Option IOpenIDConfiguration) (fetched : IOpenIDConfiguration)
    (state redirect_url : String) :
    String × Option IOpenIDConfiguration × List String :=
  let r := getOpenIDConfig settings.host config fetched
  (r.1.authorization_endpoint
      ++ "?response_type=code&access_type=offline&include_granted_scopes=true&client_id="
      ++ settings.client_id
      ++ "&scope=" ++ encodeURIComponent (joinScopes settings.scopes)
      ++ "&redirect_uri=" ++ encodeURIComponent redirect_url
      ++ "&state=" ++ encodeURIComponent state,
   r.2.1, r.2.2)

/-- result.expires = new Date(Date.now() + secondsToExpiry * 1000),
with the Date as epoch milliseconds; a non-numeric expires_in makes the
arithmetic NaN and the Date invalid. -/
def gitlabExpires (now : Int) (expires_in : JSValue) : JSValue :=
  match expires_in with
  | .num n => .num (now + n * 1000)
  | _ => .nan

/-- GitlabAuthProvider.getAccessToken applied to the fetch response.
As in the github variant the HTTP status is never read; additionally the
expires field is computed and assigned onto the parsed body. -/
def gitlabGetAccessToken (now : Int) (_status : Nat)
    (result : List (String × JSValue)) :
    Except String (List (String × JSValue)) :=
  if truthy (getField result "error") then
    .error (jsTemplate (getField result "error"))
  else
    .ok (setField result "expires" (gitlabExpires now (getField result "expires_in")))

/-- The profile object GitlabAuthProvider.getUserInfo builds from the
parsed user payload in the 200 case. -/
def gitlabProfile (user : List (String × JSValue)) : FederatedProfile :=
  { id := getField user "sub"
  , name := getField user "name"
  , display_name :=
      if truthy (getField user "nickname") then getField user "nickname"
      else getField user "name"
  , picture :=
      if truthy (getField user "picture") then
        [{ url := getField user "picture" }]
      else []
  , email := getField user "email"
  , email_verified := getField user "email_verified"
  , other :=
      ((user.map Prod.fst).filter
          (fun key =>
            !(["sub", "name", "picture", "email", "email_verified"].contains key))).map
        (fun key => (key, getField user key)) }

/-- GitlabAuthProvider.getUserInfo applied to the fetch response. -/
def gitlabGetUserInfo (status : Nat) (body : List (String × JSValue)) :
    Except String FederatedProfile :=
  if status ≠ 200 then
    .error (jsTemplate (getField body "error") ++ ": "
            ++ jsTemplate (getField body "error_description"))
  else
    .ok (gitlabProfile body)

/-! ## The provider registry (oauth-providers/index.ts) -/

/-- The provider classes the oauth-providers module imports. The class
objects themselves are opaque here; only their identity matters to the
registry. -/
inductive ProviderClass where
  | DropboxAuthProvider
  | FacebookAuthProvider
  | GoogleAuthProvider
  | InstagramAuthProvider
  | SpotifyAuthProvider
  | GitlabAuthProvider
  | GithubAuthProvider
deriving Repr, DecidableEq

/-- The default-exported oAuth2Providers registry in the variant of
index.ts that also imports the github provider. -/
def oAuth2Providers : List (String × ProviderClass) :=
  [ ("dropbox", .DropboxAuthProvider)
  , ("facebook", .FacebookAuthProvider)
  , ("google", .GoogleAuthProvider)
  , ("instagram", .InstagramAuthProvider)
  , ("spotify", .SpotifyAuthProvider)
  , ("gitlab", .GitlabAuthProvider)
  , ("github", .GithubAuthProvider) ]

/-- The oAuth2Providers registry in the six-provider variant of
index.ts, which does not import the github provider. -/
def oAuth2ProvidersWithoutGithub : List (String × ProviderClass) :=
  [ ("dropbox", .DropboxAuthProvider)
  , ("facebook", .FacebookAuthProvider)
  , ("google", .GoogleAuthProvider)
  , ("instagram", .InstagramAuthProvider)
  , ("spotify", .SpotifyAuthProvider)
  , ("gitlab", .GitlabAuthProvider) ]

/-- Property lookup oAuth2Providers[name]. -/
def registryLookup (registry : List (String × ProviderClass)) (name : String) :
    Option ProviderClass :=
  (registry.find? (fun p => p.1 == name)).map Prod.snd

/-! ## The /info/dbname route (dist/esm/routes/meta-info.js) -/

/-- The request user as the route sees it: req.user is absent or a user
record with a uid. -/
structure DbUser where
  uid : String
deriving Repr

/-- Host and process readings the admin branch embeds in its response.
The numeric formatting helpers (numberToByteSize, numberToTime) only
shape these values, which no claim inspects, so the readings arrive here
already formatted, as opaque JS values. -/
structure AdminReadings where
  dbname : JSValue
  platform : JSValue
  arch : JSValue
  release : JSValue
  host : JSValue
  uptime : JSValue
  load : JSValue
  mem : JSValue
  cpus : JSValue
  network : JSValue
deriving Repr

/-- The adminInfo object literal of the route, in source order. -/
def adminInfoFields (a : AdminReadings) : List (String × JSValue) :=
  [ ("dbname", a.dbname)
  , ("platform", a.platform)
  , ("arch", a.arch)
  , ("release", a.release)
  , ("host", a.host)
  , ("uptime", a.uptime)
  , ("load", a.load)
  , ("mem", a.mem)
  , ("cpus", a.cpus)
  , ("network", a.network) ]

/-- Object.assign(target, source): assign each source field onto the
target in order. -/
def objectAssign (target source : List (String × JSValue)) :
    List (String × JSValue) :=
  source.foldl (fun acc p => setField acc p.1 p.2) target

/-- The body the /info/dbname handler sends: the version/time/process
record, merged with adminInfo iff req.user is present with uid admin. -/
def metaInfoResponse (version time pid : JSValue) (user : Option DbUser)
    (a : AdminReadings) : List (String × JSValue) :=
  let info := [("version", version), ("time", time), ("process", pid)]
  if (match user with | some u => u.uid == "admin" | none => false) then
    objectAssign info (adminInfoFields a)
  else
    info

/-! # Helper lemmas -/

/-- Field lookup on an object whose head key is the looked-up key. -/
theorem getField_cons_self {t : List (String × JSValue)} (k : String) (b : JSValue) :
    getField ((k, b) :: t) k = b := by
  unfold getField
  rw [List.find?_cons_of_pos _ (by simp)]

/-- Field lookup skips a head entry with a different key. -/
theorem getField_cons_ne {a : String} {b : JSValue} {t : List (String × JSValue)}
    {k : String} (h : a ≠ k) : getField ((a, b) :: t) k = getField t k := by
  unfold getField
  rw [List.find?_cons_of_neg _ (by simpa using h)]

/-- Field lookup on an object with distinct keys returns the bound value. -/
theorem getField_of_mem {o : List (String × JSValue)} {k : String} {v : JSValue}
    (hmem : (k, v) ∈ o) (hnd : (o.map Prod.fst).Nodup) : getField o k = v := by
  induction o with
  | nil => cases hmem
  | cons p t ih =>
    obtain ⟨a, b⟩ := p
    have hnd2 := List.nodup_cons.mp (show (a :: t.map Prod.fst).Nodup from hnd)
    rcases List.mem_cons.mp hmem with heq | htail
    · injection heq with h1 h2
      subst h1; subst h2
      exact getField_cons_self _ _
    · have hk : a ≠ k := by
        intro h1
        subst h1
        exact hnd2.1 (List.mem_map.mpr ⟨(a, v), htail, rfl⟩)
      rw [getField_cons_ne hk]
      exact ih htail hnd2.2

/-- A key present among the keys of an object is bound in it to the value
getField returns. -/
theorem getField_mem {o : List (String × JSValue)} {k : String}
    (h : k ∈ o.map Prod.fst) : (k, getField o k) ∈ o := by
  induction o with
  | nil => cases h
  | cons p t ih =>
    obtain ⟨a, b⟩ := p
    by_cases hk : a = k
    · subst hk
      rw [getField_cons_self a b]
      exact List.mem_cons_self _ _
    · rw [getField_cons_ne hk]
      have hkt : k ∈ t.map Prod.fst := by
        rcases List.mem_cons.mp (show k ∈ a :: t.map Prod.fst from h) with h1 | h1
        · exact absurd h1.symm hk
        · exact h1
      exact List.mem_cons_of_mem _ (ih hkt)

/-- Membership in the object the reduce over filtered keys builds:
exactly the bindings of the source object whose key is outside the
exclusion list, given distinct source keys. -/
theorem mem_otherFields (excl : List String) (user : List (String × JSValue))
    (hnd : (user.map Prod.fst).Nodup) (k : String) (v : JSValue) :
    ((k, v) ∈ ((user.map Prod.fst).filter (fun key => !(excl.contains key))).map
        (fun key => (key, getField user key))) ↔
      ((k, v) ∈ user ∧ k ∉ excl) := by
  constructor
  · intro h
    rcases List.mem_map.mp h with ⟨a, ha, heq⟩
    obtain ⟨rfl, rfl⟩ := Prod.mk.injEq .. ▸ heq
    rcases List.mem_filter.mp ha with ⟨hakeys, haexcl⟩
    refine ⟨getField_mem hakeys, ?_⟩
    simpa using haexcl
  · rintro ⟨hmem, hexcl⟩
    refine List.mem_map.mpr ⟨k, List.mem_filter.mpr ⟨?_, ?_⟩, ?_⟩
    · exact List.mem_map.mpr ⟨(k, v), hmem, rfl⟩
    · simpa using hexcl
    · rw [getField_of_mem hmem hnd]

/-- Scope membership is preserved by the conditional push. -/
theorem mem_pushScopeIfAbsent_of_mem {t : String} {l : List String} (s : String)
    (h : t ∈ l) : t ∈ pushScopeIfAbsent l s := by
  unfold pushScopeIfAbsent
  split
  · exact h
  · exact List.mem_append_left _ h

/-- The pushed scope is a member of the result of the conditional push. -/
theorem mem_pushScopeIfAbsent_self (l : List String) (s : String) :
    s ∈ pushScopeIfAbsent l s := by
  unfold pushScopeIfAbsent
  split
  · next h => simpa using h
  · exact List.mem_append_right _ (by simp)

/-- The original list is a prefix of the conditional push result. -/
theorem prefix_pushScopeIfAbsent (l : List String) (s : String) :
    l <+: pushScopeIfAbsent l s := by
  unfold pushScopeIfAbsent
  split
  · exact List.prefix_refl l
  · exact List.prefix_append l [s]

/-- The conditional push never changes the multiplicity of a scope that
is already present. -/
theorem count_pushScopeIfAbsent (l : List String) (s t : String) (h : t ∈ l) :
    List.count t (pushScopeIfAbsent l s) = List.count t l := by
  unfold pushScopeIfAbsent
  split
  · rfl
  · next hc =>
    by_cases hts : t = s
    · subst hts
      exact absurd (by simpa using h) hc
    · rw [List.count_append]
      simp [List.count_cons, List.count_nil, Ne.symm hts]

/-- Once the _config member is set, every further call in a sequence
returns the stored configuration and issues no request. -/
theorem configCallSequence_cached (host : String) (c : IOpenIDConfiguration)
    (l : List IOpenIDConfiguration) :
    configCallSequence host (some c) l = (l.map (fun _ => (c, [])), some c) := by
  induction l with
  | nil => rfl
  | cons f rest ih => simp [configCallSequence, getOpenIDConfig, ih]

/-! # Claims -/

/-- C6: on one GitlabAuthProvider instance the discovery document is
fetched at most once: the first getOpenIDConfig call issues the single
discovery request and stores the fetched configuration, and every
subsequent call in the sequence returns that stored configuration with
no request issued, whatever the network would have answered; no expiry
exists (the state carries no clock). -/
theorem gitlab_discovery_fetched_once (host : String) (f : IOpenIDConfiguration)
    (rest : List IOpenIDConfiguration) :
    (configCallSequence host none (f :: rest)).1 =
      (f, [discoveryUrl host]) :: rest.map (fun _ => (f, [])) ∧
    (configCallSequence host none (f :: rest)).2 = some f := by
  simp [configCallSequence, getOpenIDConfig, configCallSequence_cached]

/-- C7: each supported provider name resolves, in the default-exported
registry of the oauth-providers module, to exactly that provider class;
in the seven-provider variant all seven names resolve, and in the
six-provider variant (without the github import) its six names resolve. -/
theorem registry_selects_provider_by_name :
    registryLookup oAuth2Providers "dropbox" = some .DropboxAuthProvider ∧
    registryLookup oAuth2Providers "facebook" = some .FacebookAuthProvider ∧
    registryLookup oAuth2Providers "google" = some .GoogleAuthProvider ∧
    registryLookup oAuth2Providers "instagram" = some .InstagramAuthProvider ∧
    registryLookup oAuth2Providers "spotify" = some .SpotifyAuthProvider ∧
    registryLookup oAuth2Providers "gitlab" = some .GitlabAuthProvider ∧
    registryLookup oAuth2Providers "github" = some .GithubAuthProvider ∧
    registryLookup oAuth2ProvidersWithoutGithub "dropbox" = some .DropboxAuthProvider ∧
    registryLookup oAuth2ProvidersWithoutGithub "facebook" = some .FacebookAuthProvider ∧
    registryLookup oAuth2ProvidersWithoutGithub "google" = some .GoogleAuthProvider ∧
    registryLookup oAuth2ProvidersWithoutGithub "instagram" = some .InstagramAuthProvider ∧
    registryLookup oAuth2ProvidersWithoutGithub "spotify" = some .SpotifyAuthProvider ∧
    registryLookup oAuth2ProvidersWithoutGithub "gitlab" = some .GitlabAuthProvider := by
  decide

/-- C1: for every payload the providers accept (profile fetch with HTTP
status 200), getUserInfo of the GitHub and GitLab providers returns the
normalized record with exactly the fields id, name, display_name,
picture (a list of url records), email, email_verified and other (a
string-keyed map), whatever the schema of the vendor payload. -/
theorem getUserInfo_normalized_shape (status : Nat)
    (user : List (String × JSValue)) (h : status = 200) :
    githubGetUserInfo status user = .ok
      { id := getField user "id"
      , name := getField user "name"
      , display_name := getField user "name"
      , picture := if truthy (getField user "avatar_url") then
            [{ url := getField user "avatar_url" }] else []
      , email := getField user "email"
      , email_verified := .bool true
      , other := ((user.map Prod.fst).filter
            (fun key => !(["sub", "name", "picture", "email_verified"].contains key))).map
          (fun key => (key, getField user key)) } ∧
    gitlabGetUserInfo status user = .ok
      { id := getField user "sub"
      , name := getField user "name"
      , display_name := if truthy (getField user "nickname") then
            getField user "nickname" else getField user "name"
      , picture := if truthy (getField user "picture") then
            [{ url := getField user "picture" }] else []
      , email := getField user "email"
      , email_verified := getField user "email_verified"
      , other := ((user.map Prod.fst).filter
            (fun key => !(["sub", "name", "picture", "email", "email_verified"].contains key))).map
          (fun key => (key, getField user key)) } := by
  subst h
  exact ⟨rfl, rfl⟩

/-- Witness for C1 at a concrete accepted payload. -/
theorem getUserInfo_normalized_shape_witness :
    githubGetUserInfo 200 [("id", JSValue.num 7)] = .ok
      { id := JSValue.num 7, name := JSValue.undefined
      , display_name := JSValue.undefined, picture := []
      , email := JSValue.undefined, email_verified := JSValue.bool true
      , other := [("id", JSValue.num 7)] } ∧
    gitlabGetUserInfo 200 [("id", JSValue.num 7)] = .ok
      { id := JSValue.undefined, name := JSValue.undefined
      , display_name := JSValue.undefined, picture := []
      , email := JSValue.undefined, email_verified := JSValue.undefined
      , other := [("id", JSValue.num 7)] } :=
  getUserInfo_normalized_shape 200 [("id", JSValue.num 7)] rfl

/-- C5: an absent or empty avatar_url (GitHub) or picture (GitLab) field
yields the empty picture list; a nonempty one yields the one-element
list holding that url. -/
theorem picture_list_from_avatar (user : List (String × JSValue)) (s : String) :
    ((getField user "avatar_url" = JSValue.undefined ∨
        getField user "avatar_url" = JSValue.str "") →
      (githubProfile user).picture = []) ∧
    (getField user "avatar_url" = JSValue.str s → s ≠ "" →
      (githubProfile user).picture = [{ url := JSValue.str s }]) ∧
    ((getField user "picture" = JSValue.undefined ∨
        getField user "picture" = JSValue.str "") →
      (gitlabProfile user).picture = []) ∧
    (getField user "picture" = JSValue.str s → s ≠ "" →
      (gitlabProfile user).picture = [{ url := JSValue.str s }]) := by
  refine ⟨?_, ?_, ?_, ?_⟩
  · rintro (h | h) <;> simp [githubProfile, h, truthy]
  · intro h hs
    simp [githubProfile, h, truthy, hs]
  · rintro (h | h) <;> simp [gitlabProfile, h, truthy]
  · intro h hs
    simp [gitlabProfile, h, truthy, hs]

/-- Witness for C5: a present avatar gives a one-element picture list,
an absent one the empty list. -/
theorem picture_list_from_avatar_witness :
    (githubProfile [("avatar_url", JSValue.str "https://a/i.png")]).picture =
      [{ url := JSValue.str "https://a/i.png" }] ∧
    (gitlabProfile []).picture = [] :=
  ⟨(picture_list_from_avatar [("avatar_url", JSValue.str "https://a/i.png")]
      "https://a/i.png").2.1 rfl (by decide),
   (picture_list_from_avatar [] "x").2.2.1 (Or.inl rfl)⟩

/-- C8: every profile the GitHub getUserInfo returns carries
email_verified = true, whatever the payload said about verification. -/
theorem github_email_verified_always_true (status : Nat)
    (user : List (String × JSValue)) (p : FederatedProfile)
    (h : githubGetUserInfo status user = .ok p) :
    p.email_verified = JSValue.bool true := by
  unfold githubGetUserInfo at h
  split at h
  · cases h
  · injection h with h1
    subst h1
    rfl

/-- Witness for C8 at a payload that claims the email is unverified. -/
theorem github_email_verified_always_true_witness :
    (githubProfile [("email_verified", JSValue.bool false)]).email_verified =
      JSValue.bool true :=
  github_email_verified_always_true 200 [("email_verified", JSValue.bool false)]
    (githubProfile [("email_verified", JSValue.bool false)]) rfl

/-- C9: a request to the /info/dbname route without a user, or whose
user uid is not admin, receives exactly the version/time/process record,
with none of the host/system fields of the admin branch. -/
theorem meta_info_non_admin (version time pid : JSValue) (user : Option DbUser)
    (a : AdminReadings) (h : ∀ u, user = some u → u.uid ≠ "admin") :
    metaInfoResponse version time pid user a =
      [("version", version), ("time", time), ("process", pid)] ∧
    ∀ k ∈ ["dbname", "platform", "arch", "release", "host", "uptime",
           "load", "mem", "cpus", "network"],
      k ∉ (metaInfoResponse version time pid user a).map Prod.fst := by
  have hr : metaInfoResponse version time pid user a =
      [("version", version), ("time", time), ("process", pid)] := by
    cases user with
    | none => rfl
    | some u =>
      have hu : (u.uid == "admin") = false := by simpa using h u rfl
      simp [metaInfoResponse, hu]
  refine ⟨hr, ?_⟩
  rw [hr]
  intro k hk
  show k ∉ (["version", "time", "process"] : List String)
  fin_cases hk <;> decide

/-- Witness for C9: a non-admin user gets the three-field record. -/
theorem meta_info_non_admin_witness :
    metaInfoResponse (JSValue.str "1.0.0") (JSValue.num 5) (JSValue.num 9)
      (some { uid := "alice" })
      { dbname := JSValue.str "db", platform := JSValue.str "linux"
      , arch := JSValue.str "x64", release := JSValue.str "r"
      , host := JSValue.str "h", uptime := JSValue.str "1d0h0m0s"
      , load := JSValue.arr [], mem := JSValue.obj []
      , cpus := JSValue.arr [], network := JSValue.obj [] } =
      [("version", JSValue.str "1.0.0"), ("time", JSValue.num 5),
       ("process", JSValue.num 9)] :=
  (meta_info_non_admin (JSValue.str "1.0.0") (JSValue.num 5) (JSValue.num 9)
    (some { uid := "alice" })
    { dbname := JSValue.str "db", platform := JSValue.str "linux"
    , arch := JSValue.str "x64", release := JSValue.str "r"
    , host := JSValue.str "h", uptime := JSValue.str "1d0h0m0s"
    , load := JSValue.arr [], mem := JSValue.obj []
    , cpus := JSValue.arr [], network := JSValue.obj [] }
    (by intro u hu; cases hu; decide)).1

/-- C10: after either provider constructor runs, the scopes list
contains email, profile and openid; every caller-supplied scope is
preserved (the supplied list is a prefix of the result); and a scope
already present is not added a second time (its multiplicity is
unchanged). -/
theorem constructor_scopes_normalized (scopes : Option (List String))
    (cid csec stt hst : String) :
    (githubConstructor cid csec scopes stt).scopes = constructorScopes scopes ∧
    (gitlabConstructor cid csec scopes hst).scopes = constructorScopes scopes ∧
    "email" ∈ constructorScopes scopes ∧
    "profile" ∈ constructorScopes scopes ∧
    "openid" ∈ constructorScopes scopes ∧
    ∀ l, scopes = some l →
      l <+: constructorScopes scopes ∧
      ∀ s, s ∈ l →
        List.count s (constructorScopes scopes) = List.count s l := by
  refine ⟨rfl, rfl, ?_, ?_, ?_, ?_⟩
  · exact mem_pushScopeIfAbsent_of_mem _
      (mem_pushScopeIfAbsent_of_mem _ (mem_pushScopeIfAbsent_self _ _))
  · exact mem_pushScopeIfAbsent_of_mem _ (mem_pushScopeIfAbsent_self _ _)
  · exact mem_pushScopeIfAbsent_self _ _
  · rintro l rfl
    constructor
    · exact ((prefix_pushScopeIfAbsent l "email").trans
        (prefix_pushScopeIfAbsent _ "profile")).trans
        (prefix_pushScopeIfAbsent _ "openid")
    · intro s hs
      have h1 : s ∈ pushScopeIfAbsent l "email" :=
        mem_pushScopeIfAbsent_of_mem _ hs
      have h2 : s ∈ pushScopeIfAbsent (pushScopeIfAbsent l "email") "profile" :=
        mem_pushScopeIfAbsent_of_mem _ h1
      rw [show constructorScopes (some l) =
          pushScopeIfAbsent (pushScopeIfAbsent (pushScopeIfAbsent l "email")
            "profile") "openid" from rfl,
        count_pushScopeIfAbsent _ "openid" s h2,
        count_pushScopeIfAbsent _ "profile" s h1,
        count_pushScopeIfAbsent _ "email" s hs]

/-- Witness for C10: a supplied list keeps its place and its multiplicities. -/
theorem constructor_scopes_normalized_witness :
    ["openid", "x"] <+: constructorScopes (some ["openid", "x"]) ∧
    List.count "openid" (constructorScopes (some ["openid", "x"])) =
      List.count "openid" ["openid", "x"] :=
  ⟨((constructor_scopes_normalized (some ["openid", "x"]) "a" "b" "c" "d").2.2.2.2.2
      ["openid", "x"] rfl).1,
   ((constructor_scopes_normalized (some ["openid", "x"]) "a" "b" "c" "d").2.2.2.2.2
      ["openid", "x"] rfl).2 "openid" (by decide)⟩

/-- C2 as stated fails on the code: in the GitHub payload below the key
id is mapped into the top-level id field and nevertheless appears in
other, as do avatar_url and email (the GitHub filter list excludes only
sub, name, picture and email_verified); likewise the GitLab key nickname
is mapped into display_name yet appears in other. -/
theorem other_contains_mapped_keys :
    (githubProfile [("id", JSValue.num 1), ("avatar_url", JSValue.str "https://a"),
        ("email", JSValue.str "e@x")]).id = JSValue.num 1 ∧
    ("id", JSValue.num 1) ∈ (githubProfile [("id", JSValue.num 1),
        ("avatar_url", JSValue.str "https://a"), ("email", JSValue.str "e@x")]).other ∧
    ("avatar_url", JSValue.str "https://a") ∈ (githubProfile [("id", JSValue.num 1),
        ("avatar_url", JSValue.str "https://a"), ("email", JSValue.str "e@x")]).other ∧
    ("email", JSValue.str "e@x") ∈ (githubProfile [("id", JSValue.num 1),
        ("avatar_url", JSValue.str "https://a"), ("email", JSValue.str "e@x")]).other ∧
    (gitlabProfile [("nickname", JSValue.str "nick")]).display_name =
      JSValue.str "nick" ∧
    ("nickname", JSValue.str "nick") ∈
      (gitlabProfile [("nickname", JSValue.str "nick")]).other :=
  ⟨rfl, List.Mem.head _, List.Mem.tail _ (List.Mem.head _),
   List.Mem.tail _ (List.Mem.tail _ (List.Mem.head _)), rfl, List.Mem.head _⟩

/-- C2 amended: the other map of a returned profile contains exactly
those payload bindings whose key is outside the fixed exclusion list of
the provider (sub, name, picture, email_verified for GitHub; those plus
email for GitLab), each bound to its payload value verbatim. Mapped
keys outside those lists (id, avatar_url and email for GitHub, nickname
for GitLab) therefore appear in other as well. -/
theorem other_is_exclusion_filtered (user : List (String × JSValue))
    (hnd : (user.map Prod.fst).Nodup) (k : String) (v : JSValue) :
    ((k, v) ∈ (githubProfile user).other ↔
      (k, v) ∈ user ∧
        k ∉ (["sub", "name", "picture", "email_verified"] : List String)) ∧
    ((k, v) ∈ (gitlabProfile user).other ↔
      (k, v) ∈ user ∧
        k ∉ (["sub", "name", "picture", "email", "email_verified"] : List String)) :=
  ⟨mem_otherFields _ user hnd k v, mem_otherFields _ user hnd k v⟩

/-- Witness for the amended C2: an unmapped key is preserved verbatim in
other and an excluded key is dropped from it. -/
theorem other_is_exclusion_filtered_witness :
    ("login", JSValue.str "me") ∈
      (githubProfile [("login", JSValue.str "me"), ("name", JSValue.str "M")]).other ∧
    ("name", JSValue.str "M") ∉
      (githubProfile [("login", JSValue.str "me"), ("name", JSValue.str "M")]).other :=
  ⟨((other_is_exclusion_filtered
      [("login", JSValue.str "me"), ("name", JSValue.str "M")]
      (by decide) "login" (JSValue.str "me")).1).mpr
      ⟨List.Mem.head _, by decide⟩,
   fun hmem =>
    (((other_is_exclusion_filtered
        [("login", JSValue.str "me"), ("name", JSValue.str "M")]
        (by decide) "name" (JSValue.str "M")).1).mp hmem).2 (by decide)⟩

/-- C3 as stated fails on the code: a token exchange response with
non-success status 400 and no error payload is returned as a token
rather than failing; a token exchange error is surfaced without the
error description the body carries; and a 200 profile response carrying
an error payload is accepted and normalized instead of failing. -/
theorem exchange_error_handling_gaps :
    githubGetAccessToken 400 [("access_token", JSValue.str "t")] =
      .ok [("access_token", JSValue.str "t")] ∧
    gitlabGetAccessToken 0 400 [("access_token", JSValue.str "t")] =
      .ok [("access_token", JSValue.str "t"), ("expires", JSValue.nan)] ∧
    githubGetAccessToken 200 [("error", JSValue.str "bad_verification_code"),
        ("error_description", JSValue.str "The code is incorrect.")] =
      .error "bad_verification_code" ∧
    githubGetUserInfo 200 [("error", JSValue.str "bad_credentials")] =
      .ok (githubProfile [("error", JSValue.str "bad_credentials")]) :=
  ⟨rfl, rfl, rfl, rfl⟩

/-- C3 amended: the token exchange of both providers fails exactly when
the response body carries a truthy error field, whatever the HTTP
status, and the error then carries only the provider error code; the
profile fetch of both providers fails exactly when the HTTP status is
not 200, and the error then carries the provider error code and
description; otherwise the parsed result is returned. -/
theorem exchange_and_profile_error_behavior (now : Int) (status : Nat)
    (result body : List (String × JSValue)) :
    (truthy (getField result "error") = true →
      githubGetAccessToken status result =
        .error (jsTemplate (getField result "error")) ∧
      gitlabGetAccessToken now status result =
        .error (jsTemplate (getField result "error"))) ∧
    (truthy (getField result "error") = false →
      githubGetAccessToken status result = .ok result ∧
      gitlabGetAccessToken now status result =
        .ok (setField result "expires"
          (gitlabExpires now (getField result "expires_in")))) ∧
    (status ≠ 200 →
      githubGetUserInfo status body =
        .error (jsTemplate (getField body "error") ++ ": " ++
          jsTemplate (getField body "error_description")) ∧
      gitlabGetUserInfo status body =
        .error (jsTemplate (getField body "error") ++ ": " ++
          jsTemplate (getField body "error_description"))) ∧
    (status = 200 →
      githubGetUserInfo status body = .ok (githubProfile body) ∧
      gitlabGetUserInfo status body = .ok (gitlabProfile body)) := by
  refine ⟨fun h => ?_, fun h => ?_, fun h => ?_, fun h => ?_⟩ <;>
    constructor <;>
    simp [githubGetAccessToken, gitlabGetAccessToken, githubGetUserInfo,
      gitlabGetUserInfo, h]

/-- Witness for the amended C3: an error payload fails the exchange with
the code alone, and a 404 profile fetch fails with code and description. -/
theorem exchange_and_profile_error_behavior_witness :
    githubGetAccessToken 200 [("error", JSValue.str "e")] = .error "e" ∧
    githubGetUserInfo 404 [("error", JSValue.str "e"),
        ("error_description", JSValue.str "d")] = .error "e: d" :=
  ⟨((exchange_and_profile_error_behavior 0 200 [("error", JSValue.str "e")] []).1
      rfl).1,
   ((exchange_and_profile_error_behavior 0 404 []
      [("error", JSValue.str "e"), ("error_description", JSValue.str "d")]).2.2.1
      (by decide)).1⟩

/-- C4 as stated fails on the code for GitLab: two runs of init with
identical constructor-time settings and input, on fresh instances whose
discovery fetches answer differently, produce different URLs, and the
run issues a network request (the discovery fetch). -/
theorem gitlab_init_depends_on_network :
    (gitlabInit (gitlabConstructor "cid" "sec" none "gl.example.com") none
        { authorization_endpoint := "https://a/oauth/authorize"
        , token_endpoint := "t", revocation_endpoint := "r"
        , userinfo_endpoint := "u" }
        "st" "https://cb").1 ≠
      (gitlabInit (gitlabConstructor "cid" "sec" none "gl.example.com") none
        { authorization_endpoint := "https://b/oauth/authorize"
        , token_endpoint := "t", revocation_endpoint := "r"
        , userinfo_endpoint := "u" }
        "st" "https://cb").1 ∧
    (gitlabInit (gitlabConstructor "cid" "sec" none "gl.example.com") none
        { authorization_endpoint := "https://a/oauth/authorize"
        , token_endpoint := "t", revocation_endpoint := "r"
        , userinfo_endpoint := "u" }
        "st" "https://cb").2.2 = [discoveryUrl "gl.example.com"] := by
  constructor
  · decide
  · rfl

/-- C4 amended: the GitHub init builds its URL from constructor-time
settings and the input alone and issues no network request; the GitLab
init on an instance with a cached discovery document issues no request
and its URL is independent of what the network would answer, while on a
fresh instance it issues the discovery fetch and, per the
counterexample, its URL follows the fetched document. -/
theorem init_url_construction (ghs : IGithubAuthSettings)
    (gls : IGitlabAuthSettings) (c f1 f2 : IOpenIDConfiguration)
    (state redirect_url : String) :
    (githubInit ghs state redirect_url).2 = [] ∧
    (gitlabInit gls (some c) f1 state redirect_url).1 =
      (gitlabInit gls (some c) f2 state redirect_url).1 ∧
    (gitlabInit gls (some c) f1 state redirect_url).2.2 = [] ∧
    (gitlabInit gls none f1 state redirect_url).2.2 =
      [discoveryUrl gls.host] :=
  ⟨rfl, rfl, rfl, rfl⟩
